import Mathlib

/-
Verification development for the CoBAUI framework (Angular/rxjs, TypeScript).
The definitions below are a shallow embedding of the source files:
  projects/cobaui/src/lib/context/context-param.interface.ts
  projects/cobaui/src/lib/context/context-provider.base.ts
  projects/cobaui/src/lib/rules/rule-provider.base.ts
  projects/cobaui/src/lib/core/adaptation-controller.ts
  projects/cobaui/src/lib/ui/adaptive-widget.base.ts
Reactive plumbing (rxjs 6 BehaviorSubject, Subject, combineLatest) is embedded
explicitly: a BehaviorSubject is represented by its current value together with
the history of values pushed through next; combineLatest is represented by its
latest-value slot table. All TypeScript values of type any are modelled by a
type parameter V.
-/

namespace CoBAUI

-- ===== Data model (context-param.interface.ts, adaptation-rule.interface.ts,
-- ===== adaptation-action.interface.ts) =====

/-- ContextOfUse from context-param.interface.ts. -/
inductive ContextOfUse : Type
  | user
  | platform
  | environment
deriving DecidableEq

/-- ContextValueType from context-param.interface.ts. -/
inductive ContextValueType : Type
  | string
  | number
  | boolean
  | array
  | object
deriving DecidableEq

/-- ContextParam from context-param.interface.ts; the field type is optional,
the field value has TypeScript type any, modelled by the parameter V. -/
structure ContextParam (V : Type) : Type where
  contextOfUse : ContextOfUse
  type : Option ContextValueType
  key : String
  value : V
deriving DecidableEq

/-- AdaptationAction from adaptation-action.interface.ts; scope and params
are optional fields (absent is modelled by none). -/
structure AdaptationAction (V : Type) : Type where
  target : String
  scope : Option (List String)
  name : String
  params : Option (List (String × V))
deriving DecidableEq

/-- AdaptationRule from adaptation-rule.interface.ts. -/
structure AdaptationRule (V : Type) : Type where
  name : String
  condition : String
  actions : List (AdaptationAction V)
deriving DecidableEq

variable {V : Type} {A : Type}

-- ===== rxjs combineLatest machinery =====

/-- Arrival of value v from source i at an rxjs CombineLatestSubscriber: the
slot of source i is overwritten with v and, if every source has delivered at
least one value, the combined list of latest values is emitted. -/
def clArrive (slots : List (Option A)) (i : Nat) (v : A) :
    List (Option A) × List (List A) :=
  let s := slots.set i (some v)
  (s, if s.all Option.isSome then [s.filterMap id] else [])

/-- Sequential subscription of combineLatest to its sources, starting at source
index i: subscribing to source k synchronously delivers that BehaviorSubject
current value into slot k (rxjs BehaviorSubject replays its latest value to a
new subscriber). Outputs are collected in subscription order. -/
def buildJoinAux : List (Option A) → Nat → List A → List (Option A) × List (List A)
  | slots, _, [] => (slots, [])
  | slots, i, c :: rest =>
    let p := clArrive slots i c
    let q := buildJoinAux p.1 (i + 1) rest
    (q.1, p.2 ++ q.2)

/-- Subscribing combineLatest(...sources) where every source is a
BehaviorSubject whose current value is listed in cs: empty slots are allocated
and every source is subscribed in order, each replaying its current value. -/
def buildJoin (cs : List A) : List (Option A) × List (List A) :=
  buildJoinAux (List.replicate cs.length none) 0 cs

-- ===== ContextProvider (context-provider.base.ts) =====

/-- Truthiness of a JavaScript array object: any object, including the empty
array, is truthy. The guard in ContextProvider.addContextParam tests
this.contextParams.filter(...) directly, which is an array and hence always
truthy. -/
def jsTruthy (_l : List A) : Bool := true

/-- State of a ContextProvider: its contextParams array together with the
history of snapshots pushed through contextParams$.next (a BehaviorSubject
initialised with the empty list). -/
structure ContextProvider (V : Type) : Type where
  contextParams : List (ContextParam V)
  emitted : List (List (ContextParam V))
deriving DecidableEq

/-- ContextProvider.addContextParam: if (this.contextParams.filter(param =>
param.key === newParam.key)) \x7b this.contextParams.push(newParam); \x7d.
The filter result is an array, always truthy, so the push is unconditional. -/
def ContextProvider.addContextParam (cp : ContextProvider V)
    (newParam : ContextParam V) : ContextProvider V :=
  if jsTruthy (cp.contextParams.filter (fun param => param.key == newParam.key)) then
    { cp with contextParams := cp.contextParams ++ [newParam] }
  else
    cp

/-- ContextProvider.removeContextParam: this.contextParams =
this.contextParams.filter(param => param.key !== key). -/
def ContextProvider.removeContextParam (cp : ContextProvider V) (key : String) :
    ContextProvider V :=
  { cp with contextParams := cp.contextParams.filter (fun param => param.key != key) }

/-- ContextProvider.getContextParam: this.contextParams.find(param =>
param.key == key), i.e. the first parameter with the given key. -/
def ContextProvider.getContextParam (cp : ContextProvider V) (key : String) :
    Option (ContextParam V) :=
  cp.contextParams.find? (fun param => param.key == key)

/-- ContextProvider.modifyContextParam: look up the first parameter with the
key; if present, remove all parameters with the key and add a fresh parameter
carrying the old contextOfUse, type and key with the new value. No call to
updateContext occurs, so nothing is emitted. -/
def ContextProvider.modifyContextParam (cp : ContextProvider V) (key : String)
    (newValue : V) : ContextProvider V :=
  match cp.getContextParam key with
  | some oldParam =>
      (cp.removeContextParam key).addContextParam
        ⟨oldParam.contextOfUse, oldParam.type, oldParam.key, newValue⟩
  | none => cp

/-- ContextProvider.updateContext: this.contextParams$.next(this.contextParams).
Returns the new provider state and the list of snapshots emitted by the call
(exactly one, the entire current parameter array). -/
def ContextProvider.updateContext (cp : ContextProvider V) :
    ContextProvider V × List (List (ContextParam V)) :=
  ({ cp with emitted := cp.emitted ++ [cp.contextParams] },
   [cp.contextParams])

/-- Current value of the contextParams$ BehaviorSubject: the last value pushed
through next, or the initial empty list. -/
def ContextProvider.bsCurrent (cp : ContextProvider V) : List (ContextParam V) :=
  cp.emitted.getLastD []

-- ===== RuleProvider (rule-provider.base.ts) =====

/-- State of a RuleProvider: its rules array together with the history of
snapshots pushed through rules$.next (a BehaviorSubject initialised with the
empty list). -/
structure RuleProvider (V : Type) : Type where
  rules : List (AdaptationRule V)
  emitted : List (List (AdaptationRule V))
deriving DecidableEq

/-- RuleProvider.addRule: this.rules.push(rule); this.rules$.next(this.rules).
Returns the new provider state and the snapshots emitted by the call (exactly
one, the post-push rule array). -/
def RuleProvider.addRule (rp : RuleProvider V) (rule : AdaptationRule V) :
    RuleProvider V × List (List (AdaptationRule V)) :=
  let rules := rp.rules ++ [rule]
  (⟨rules, rp.emitted ++ [rules]⟩, [rules])

/-- RuleProvider.removeRule: this.rules = this.rules.filter(rule => rule.name
!== name); this.rules$.next(this.rules). Returns the new provider state and
the snapshots emitted by the call (exactly one, the filtered rule array). -/
def RuleProvider.removeRule (rp : RuleProvider V) (name : String) :
    RuleProvider V × List (List (AdaptationRule V)) :=
  let rules := rp.rules.filter (fun rule => rule.name != name)
  (⟨rules, rp.emitted ++ [rules]⟩, [rules])

/-- Current value of the rules$ BehaviorSubject: the last value pushed through
next, or the initial empty list. -/
def RuleProvider.bsCurrent (rp : RuleProvider V) : List (AdaptationRule V) :=
  rp.emitted.getLastD []

-- ===== AdaptationController (adaptation-controller.ts) =====

/-- State of the AdaptationController. contextProviders and ruleProviders are
the registered provider components in registration order; cpSlots and rpSlots
are the latest-value slot tables of the combineLatest subscription currently
held in cpSubscription and rpSubscription; context and rules are the current
values of the context$ and rules$ BehaviorSubjects; hasEvaluator records
whether registerRuleEvaluator installed a RuleEvaluator. The remaining fields
are observation logs of the run: evalCalls records each invocation of
ruleEvaluator.evaluate with the (rules, context) arguments passed to it,
diagnostics counts the no-RuleEvaluator console messages, triggerCalls counts
invocations of evaluateAdaptationRules, and contextOutputs and ruleOutputs
record the merged snapshots published through updateContext and updateRules. -/
structure AdaptationController (V : Type) : Type where
  contextProviders : List (ContextProvider V)
  ruleProviders : List (RuleProvider V)
  cpSlots : List (Option (List (ContextParam V)))
  rpSlots : List (Option (List (AdaptationRule V)))
  context : List (ContextParam V)
  rules : List (AdaptationRule V)
  hasEvaluator : Bool
  evalCalls : List (List (AdaptationRule V) × List (ContextParam V))
  diagnostics : Nat
  triggerCalls : Nat
  contextOutputs : List (List (ContextParam V))
  ruleOutputs : List (List (AdaptationRule V))
deriving DecidableEq

/-- Freshly constructed AdaptationController: empty provider lists, no active
join subscriptions, context$ and rules$ initialised with empty lists, no
RuleEvaluator installed. -/
def AdaptationController.init : AdaptationController V :=
  ⟨[], [], [], [], [], [], false, [], 0, 0, [], []⟩

/-- AdaptationController.evaluateAdaptationRules: if a RuleEvaluator is set,
call its evaluate with getRules() and getContext(); otherwise log a diagnostic
message. Either way the trigger itself runs exactly once per call. -/
def AdaptationController.evaluateAdaptationRules (st : AdaptationController V) :
    AdaptationController V :=
  if st.hasEvaluator then
    { st with
      triggerCalls := st.triggerCalls + 1
      evalCalls := st.evalCalls ++ [(st.rules, st.context)] }
  else
    { st with
      triggerCalls := st.triggerCalls + 1
      diagnostics := st.diagnostics + 1 }

/-- AdaptationController.updateContext: this.context$.next(contextParams) then
this.evaluateAdaptationRules(). The published merged snapshot is logged in
contextOutputs. -/
def AdaptationController.updateContext (st : AdaptationController V)
    (contextParams : List (ContextParam V)) : AdaptationController V :=
  AdaptationController.evaluateAdaptationRules
    { st with
      context := contextParams
      contextOutputs := st.contextOutputs ++ [contextParams] }

/-- AdaptationController.updateRules: this.rules$.next(rules) then
this.evaluateAdaptationRules(). The published merged snapshot is logged in
ruleOutputs. -/
def AdaptationController.updateRules (st : AdaptationController V)
    (rules : List (AdaptationRule V)) : AdaptationController V :=
  AdaptationController.evaluateAdaptationRules
    { st with
      rules := rules
      ruleOutputs := st.ruleOutputs ++ [rules] }

/-- AdaptationController.registerRuleEvaluator: this.ruleEvaluator =
this.injector.get(token). -/
def AdaptationController.registerRuleEvaluator (st : AdaptationController V) :
    AdaptationController V :=
  { st with hasEvaluator := true }

/-- AdaptationController.registerContextProvider: push the provider, build
combineLatest over the observables of all providers, unsubscribe the old
cpSubscription and subscribe freshly. Every source is a BehaviorSubject, so
each replays its current value during the subscription; every merged list
emitted by the join is flattened by [].concat(...nestedParams) and passed to
updateContext. -/
def AdaptationController.registerContextProvider (st : AdaptationController V)
    (contextProvider : ContextProvider V) : AdaptationController V :=
  let providers := st.contextProviders ++ [contextProvider]
  let b := buildJoin (providers.map ContextProvider.bsCurrent)
  b.2.foldl (fun s m => s.updateContext m.flatten)
    { st with contextProviders := providers, cpSlots := b.1 }

/-- AdaptationController.registerRuleProvider: analogous to
registerContextProvider, on the rule side. -/
def AdaptationController.registerRuleProvider (st : AdaptationController V)
    (ruleProvider : RuleProvider V) : AdaptationController V :=
  let providers := st.ruleProviders ++ [ruleProvider]
  let b := buildJoin (providers.map RuleProvider.bsCurrent)
  b.2.foldl (fun s m => s.updateRules m.flatten)
    { st with ruleProviders := providers, rpSlots := b.1 }

/-- Delivery of one snapshot from context producer i to the active
combineLatest subscription: the slot is updated and each merged emission is
flattened and passed to updateContext. -/
def AdaptationController.cpArrive (st : AdaptationController V) (i : Nat)
    (snap : List (ContextParam V)) : AdaptationController V :=
  let p := clArrive st.cpSlots i snap
  p.2.foldl (fun s m => s.updateContext m.flatten) { st with cpSlots := p.1 }

/-- Delivery of one snapshot from rule producer i to the active combineLatest
subscription: the slot is updated and each merged emission is flattened and
passed to updateRules. -/
def AdaptationController.rpArrive (st : AdaptationController V) (i : Nat)
    (snap : List (AdaptationRule V)) : AdaptationController V :=
  let p := clArrive st.rpSlots i snap
  p.2.foldl (fun s m => s.updateRules m.flatten) { st with rpSlots := p.1 }

/-- Registered context provider i calls its updateContext(): its
contextParams$ BehaviorSubject pushes the current parameter array, which is
delivered to the controller join. -/
def AdaptationController.providerUpdateContext (st : AdaptationController V)
    (i : Nat) : AdaptationController V :=
  match st.contextProviders.get? i with
  | none => st
  | some cp =>
    let u := cp.updateContext
    u.2.foldl (fun s snap => s.cpArrive i snap)
      { st with contextProviders := st.contextProviders.set i u.1 }

/-- Registered rule provider i has addRule(rule) called on it: the provider
pushes one new snapshot through rules$, which is delivered to the controller
join. -/
def AdaptationController.providerAddRule (st : AdaptationController V) (i : Nat)
    (rule : AdaptationRule V) : AdaptationController V :=
  match st.ruleProviders.get? i with
  | none => st
  | some rp =>
    let u := rp.addRule rule
    u.2.foldl (fun s snap => s.rpArrive i snap)
      { st with ruleProviders := st.ruleProviders.set i u.1 }

-- ===== AdaptiveWidget and action dispatch (adaptive-widget.base.ts) =====

/-- The filter predicate installed by AdaptiveWidget.setupAdaptivity:
action.target === this.name AND (action.scope.length === 0 OR
action.scope.includes(this.namespace)). JavaScript AND short-circuits, so
scope is only dereferenced when the target matches; if scope is absent
(undefined) at that point, reading scope.length raises a TypeError, modelled
as none. -/
def widgetActionFilter (name ns : String) (action : AdaptationAction V) :
    Option Bool :=
  if action.target == name then
    match action.scope with
    | none => none
    | some scope => some (scope.length == 0 || scope.contains ns)
  else
    some false

/-- The delivery condition as the specification words it: deliver iff
action.target equals the handler target name AND (scope is absent, or empty,
or the handler namespace is a member of scope). Written from the spec text,
for comparison with widgetActionFilter, which is written from the source. -/
def specDeliverFilter (name ns : String) (action : AdaptationAction V) : Bool :=
  action.target == name &&
    (match action.scope with
     | none => true
     | some scope => scope.isEmpty || scope.contains ns)

/-- One subscription on the AdaptationActions subject: the widget name and
namespace captured by the filter, and whether the overriding adapt
implementation throws on a given action. -/
structure AdaptiveWidget (V : Type) : Type where
  name : String
  ns : String
  adaptThrows : AdaptationAction V → Bool

/-- AdaptiveWidget.setupAdaptivity, called from the constructor: subscribe to
the AdaptationActions observable. The Subscription object returned by
subscribe is discarded (not stored in any field). -/
def setupAdaptivity (subs : List (AdaptiveWidget V)) (w : AdaptiveWidget V) :
    List (AdaptiveWidget V) :=
  subs ++ [w]

/-- AdaptiveWidget.ngOnDestroy: the body in the source is empty, and the
subscription created in setupAdaptivity was never stored, so nothing is
unsubscribed; the subscriber list is unchanged. -/
def ngOnDestroy (subs : List (AdaptiveWidget V)) : List (AdaptiveWidget V) :=
  subs

/-- Subject.next fan-out for adaptationActions$ (rxjs 6, default
configuration): iterate over a copy of the observer list. Each observer chain
runs the setupAdaptivity filter; a predicate error (TypeError from an absent
scope) is caught by the FilterSubscriber, which errors and unsubscribes that
observer, and the loop continues. When the predicate passes, the
SafeSubscriber invokes adapt; an error thrown by adapt is caught by
SafeSubscriber, which unsubscribes that observer and reports the error
asynchronously, and the loop continues. Returns the (name, namespace) pairs of
widgets whose adapt was invoked, in order, and the observers still subscribed
afterwards. -/
def subjectNext : List (AdaptiveWidget V) → AdaptationAction V →
    List (String × String) × List (AdaptiveWidget V)
  | [], _ => ([], [])
  | w :: rest, a =>
    let q := subjectNext rest a
    match widgetActionFilter w.name w.ns a with
    | none => (q.1, q.2)
    | some false => (q.1, w :: q.2)
    | some true =>
      ((w.name, w.ns) :: q.1, if w.adaptThrows a then q.2 else w :: q.2)

-- ===== Helper lemmas about the join machinery =====

lemma set_append_cons_length (xs : List (Option A)) (y : Option A)
    (zs : List (Option A)) (v : Option A) :
    (xs ++ y :: zs).set xs.length v = xs ++ v :: zs := by
  induction xs with
  | nil => simp
  | cons a t ih => simp [ih]

lemma all_isSome_map_some (xs : List A) :
    (xs.map some).all Option.isSome = true := by
  induction xs with
  | nil => simp
  | cons a t ih => simp [ih]

lemma filterMap_id_map_some (xs : List A) :
    (xs.map some).filterMap id = xs := by
  induction xs with
  | nil => simp
  | cons a t ih => simp [ih]

lemma map_some_set (xs : List A) (i : Nat) (v : A) :
    (xs.map some).set i (some v) = (xs.set i v).map some := by
  induction xs generalizing i with
  | nil => simp
  | cons a t ih =>
    cases i with
    | zero => simp
    | succ n =>
      rw [List.map_cons, List.set_cons_succ, List.set_cons_succ, List.map_cons, ih]

/-- After the barrier is met every slot is filled, so one arrival publishes
exactly one combined list: the latest values with slot i overwritten. -/
lemma clArrive_all_filled (xs : List A) (i : Nat) (v : A) :
    clArrive (xs.map some) i v = ((xs.set i v).map some, [xs.set i v]) := by
  simp only [clArrive]
  rw [map_some_set, all_isSome_map_some, filterMap_id_map_some]
  simp

lemma buildJoinAux_char (cs : List A) (done : List A) :
    buildJoinAux (done.map some ++ List.replicate cs.length none) done.length cs
      = ((done ++ cs).map some, if cs.isEmpty then [] else [done ++ cs]) := by
  induction cs generalizing done with
  | nil => simp [buildJoinAux]
  | cons c rest ih =>
    have hset : (done.map some ++ (none : Option A) :: List.replicate rest.length none).set
        done.length (some c) = done.map some ++ some c :: List.replicate rest.length none := by
      have hsa := set_append_cons_length (done.map some) (none : Option A)
        (List.replicate rest.length none) (some c)
      rw [List.length_map] at hsa
      exact hsa
    have hre : done.map some ++ some c :: List.replicate rest.length none
        = (done ++ [c]).map some ++ List.replicate rest.length none := by
      simp
    unfold buildJoinAux clArrive
    simp only [List.replicate, hset, hre]
    cases rest with
    | nil =>
      simp [buildJoinAux, all_isSome_map_some, filterMap_id_map_some]
    | cons r rs =>
      have hall : ((done ++ [c]).map some ++
          List.replicate (r :: rs).length (none : Option A)).all Option.isSome = false := by
        simp [List.replicate]
      have ihc := ih (done ++ [c])
      have hlen : (done ++ [c]).length = done.length + 1 := by simp
      rw [hlen] at ihc
      simp only [hall, if_false, List.nil_append, ihc]
      simp

/-- Characterisation of the rebuilt join: every source is a BehaviorSubject
replaying its current value, so after subscription every slot is filled and,
for a nonempty source list, exactly one combined list (all current values) was
published during the subscription. -/
lemma buildJoin_char (cs : List A) :
    buildJoin cs = (cs.map some, if cs.isEmpty then [] else [cs]) := by
  have := buildJoinAux_char cs ([] : List A)
  simp only [List.nil_append, List.map_nil, List.length_nil] at this
  simpa [buildJoin] using this

lemma mem_set_self (l : List A) (i : Nat) (v : A) (h : i < l.length) :
    v ∈ l.set i v := by
  induction l generalizing i with
  | nil => simp at h
  | cons a t ih =>
    cases i with
    | zero => simp
    | succ n =>
      have : n < t.length := by simpa using h
      simp [List.set]
      exact Or.inr (ih n this)

-- ===== Characterisation of the controller operations =====

@[simp] lemma evalAR_contextProviders (st : AdaptationController V) :
    st.evaluateAdaptationRules.contextProviders = st.contextProviders := by
  unfold AdaptationController.evaluateAdaptationRules
  split <;> rfl

@[simp] lemma evalAR_ruleProviders (st : AdaptationController V) :
    st.evaluateAdaptationRules.ruleProviders = st.ruleProviders := by
  unfold AdaptationController.evaluateAdaptationRules
  split <;> rfl

@[simp] lemma evalAR_cpSlots (st : AdaptationController V) :
    st.evaluateAdaptationRules.cpSlots = st.cpSlots := by
  unfold AdaptationController.evaluateAdaptationRules
  split <;> rfl

@[simp] lemma evalAR_rpSlots (st : AdaptationController V) :
    st.evaluateAdaptationRules.rpSlots = st.rpSlots := by
  unfold AdaptationController.evaluateAdaptationRules
  split <;> rfl

@[simp] lemma evalAR_context (st : AdaptationController V) :
    st.evaluateAdaptationRules.context = st.context := by
  unfold AdaptationController.evaluateAdaptationRules
  split <;> rfl

@[simp] lemma evalAR_rules (st : AdaptationController V) :
    st.evaluateAdaptationRules.rules = st.rules := by
  unfold AdaptationController.evaluateAdaptationRules
  split <;> rfl

@[simp] lemma evalAR_hasEvaluator (st : AdaptationController V) :
    st.evaluateAdaptationRules.hasEvaluator = st.hasEvaluator := by
  unfold AdaptationController.evaluateAdaptationRules
  split <;> rfl

@[simp] lemma evalAR_contextOutputs (st : AdaptationController V) :
    st.evaluateAdaptationRules.contextOutputs = st.contextOutputs := by
  unfold AdaptationController.evaluateAdaptationRules
  split <;> rfl

@[simp] lemma evalAR_ruleOutputs (st : AdaptationController V) :
    st.evaluateAdaptationRules.ruleOutputs = st.ruleOutputs := by
  unfold AdaptationController.evaluateAdaptationRules
  split <;> rfl

@[simp] lemma evalAR_triggerCalls (st : AdaptationController V) :
    st.evaluateAdaptationRules.triggerCalls = st.triggerCalls + 1 := by
  unfold AdaptationController.evaluateAdaptationRules
  split <;> rfl

@[simp] lemma evalAR_evalCalls (st : AdaptationController V) :
    st.evaluateAdaptationRules.evalCalls =
      if st.hasEvaluator then st.evalCalls ++ [(st.rules, st.context)]
      else st.evalCalls := by
  unfold AdaptationController.evaluateAdaptationRules
  split <;> simp_all

@[simp] lemma evalAR_diagnostics (st : AdaptationController V) :
    st.evaluateAdaptationRules.diagnostics =
      if st.hasEvaluator then st.diagnostics else st.diagnostics + 1 := by
  unfold AdaptationController.evaluateAdaptationRules
  split <;> simp_all

/-- registerContextProvider rebuilds the join; since every source is a
BehaviorSubject, the barrier is met during the rebuild itself and exactly one
merged snapshot (the flattened latest values of all providers, in registration
order) is published through updateContext. The old slot table is discarded. -/
lemma registerContextProvider_char (st : AdaptationController V)
    (cp : ContextProvider V) :
    st.registerContextProvider cp =
      AdaptationController.updateContext
        { st with
          contextProviders := st.contextProviders ++ [cp]
          cpSlots := ((st.contextProviders ++ [cp]).map ContextProvider.bsCurrent).map some }
        (((st.contextProviders ++ [cp]).map ContextProvider.bsCurrent).flatten) := by
  unfold AdaptationController.registerContextProvider
  simp [buildJoin_char]

/-- registerRuleProvider, analogously. -/
lemma registerRuleProvider_char (st : AdaptationController V)
    (rp : RuleProvider V) :
    st.registerRuleProvider rp =
      AdaptationController.updateRules
        { st with
          ruleProviders := st.ruleProviders ++ [rp]
          rpSlots := ((st.ruleProviders ++ [rp]).map RuleProvider.bsCurrent).map some }
        (((st.ruleProviders ++ [rp]).map RuleProvider.bsCurrent).flatten) := by
  unfold AdaptationController.registerRuleProvider
  simp [buildJoin_char]

/-- Once every slot of the context join is filled, an arrival from producer i
publishes exactly one merged snapshot: the latest values with slot i
overwritten, flattened. -/
lemma cpArrive_filled (st : AdaptationController V) (i : Nat)
    (snap : List (ContextParam V)) (latest : List (List (ContextParam V)))
    (h : st.cpSlots = latest.map some) :
    st.cpArrive i snap =
      AdaptationController.updateContext
        { st with cpSlots := ((latest.set i snap).map some) }
        ((latest.set i snap).flatten) := by
  unfold AdaptationController.cpArrive
  rw [h, clArrive_all_filled]
  simp

/-- Once every slot of the rule join is filled, an arrival from producer i
publishes exactly one merged snapshot. -/
lemma rpArrive_filled (st : AdaptationController V) (i : Nat)
    (snap : List (AdaptationRule V)) (latest : List (List (AdaptationRule V)))
    (h : st.rpSlots = latest.map some) :
    st.rpArrive i snap =
      AdaptationController.updateRules
        { st with rpSlots := ((latest.set i snap).map some) }
        ((latest.set i snap).flatten) := by
  unfold AdaptationController.rpArrive
  rw [h, clArrive_all_filled]
  simp

-- ===== Claim theorems =====

/-- Claim C1: the spec requires an action with absent scope to be delivered to
every matching handler exactly like an empty scope, and itself notes that
dereferencing scope.length unconditionally is a defect. The source filter does
dereference action.scope.length whenever the target matches, so at the
concrete failing input (matching target, absent scope) the source predicate
raises a TypeError (none) while the spec filter delivers (true): the claim is
right and the code is wrong. -/
theorem c1_scope_absent_code_bug :
    widgetActionFilter "HideableButtonAW" "leftBtn"
      (⟨"HideableButtonAW", none, "SHOW", none⟩ : AdaptationAction String) = none
    ∧ specDeliverFilter "HideableButtonAW" "leftBtn"
      (⟨"HideableButtonAW", none, "SHOW", none⟩ : AdaptationAction String) = true := by
  decide

/-- Concrete widget for the claim C4 scenario: a HideableButtonAW instance in
namespace leftBtn whose adapt implementation does not throw. -/
def c4Widget : AdaptiveWidget String :=
  ⟨"HideableButtonAW", "leftBtn", fun _ => false⟩

/-- Concrete action for the claim C4 scenario, addressed to the widget. -/
def c4Action : AdaptationAction String :=
  ⟨"HideableButtonAW", some ["leftBtn"], "SHOW", none⟩

/-- Claim C4: the spec requires that after handler teardown (ngOnDestroy) a
published action no longer invokes onAdapt. In the source ngOnDestroy has an
empty body and the subscription created by setupAdaptivity is never stored, so
it is never released: a widget that is constructed and then destroyed still
has its adapt invoked by a subsequent publish. The claim is right and the code
is wrong. -/
theorem c4_destroyed_widget_still_invoked :
    (subjectNext (ngOnDestroy (setupAdaptivity [] c4Widget)) c4Action).1
      = [("HideableButtonAW", "leftBtn")] := by
  decide

/-- Claim C5: every publish of a merged context snapshot (updateContext) or a
merged rule snapshot (updateRules) invokes the evaluation trigger
(evaluateAdaptationRules) exactly once; the merged state update always takes
effect; when no RuleEvaluator is installed the evaluation is skipped with one
diagnostic message and no evaluator call, and the operation is total (no
exception). -/
theorem c5_publish_invokes_trigger_once (st : AdaptationController V)
    (contextParams : List (ContextParam V)) (rules : List (AdaptationRule V)) :
    ((st.updateContext contextParams).triggerCalls = st.triggerCalls + 1
      ∧ (st.updateContext contextParams).context = contextParams
      ∧ (st.updateContext contextParams).evalCalls
          = (if st.hasEvaluator then st.evalCalls ++ [(st.rules, contextParams)]
             else st.evalCalls)
      ∧ (st.updateContext contextParams).diagnostics
          = (if st.hasEvaluator then st.diagnostics else st.diagnostics + 1))
    ∧ ((st.updateRules rules).triggerCalls = st.triggerCalls + 1
      ∧ (st.updateRules rules).rules = rules
      ∧ (st.updateRules rules).evalCalls
          = (if st.hasEvaluator then st.evalCalls ++ [(rules, st.context)]
             else st.evalCalls)
      ∧ (st.updateRules rules).diagnostics
          = (if st.hasEvaluator then st.diagnostics else st.diagnostics + 1)) := by
  refine ⟨⟨?_, ?_, ?_, ?_⟩, ⟨?_, ?_, ?_, ?_⟩⟩ <;>
    simp [AdaptationController.updateContext, AdaptationController.updateRules]

/-- Claim C6: for every subscriber list (hence every ordering and every choice
of which adapt implementations throw) and every published action, the widgets
whose adapt is invoked are exactly the subscribed widgets passing the filter,
in order: a handler that throws during adapt is caught by the rxjs 6
SafeSubscriber, so it does not prevent delivery to the remaining handlers. -/
theorem c6_throwing_handler_isolated (subs : List (AdaptiveWidget V))
    (a : AdaptationAction V) :
    (subjectNext subs a).1
      = (subs.filter
          (fun w => widgetActionFilter w.name w.ns a == some true)).map
          (fun w => (w.name, w.ns)) := by
  induction subs with
  | nil => rfl
  | cons w rest ih =>
    unfold subjectNext
    cases h : widgetActionFilter w.name w.ns a with
    | none => simp [h, ih, List.filter_cons]
    | some b => cases b <;> simp [h, ih, List.filter_cons]

/-- Claim C8: removing a rule whose name matches nothing in the rule set
leaves the rule set unchanged, and the snapshot emitted by the call equals the
rule set from before the call. -/
theorem c8_remove_absent_rule_unchanged (rp : RuleProvider V) (nm : String)
    (h : ∀ r ∈ rp.rules, r.name ≠ nm) :
    (rp.removeRule nm).1.rules = rp.rules
    ∧ (rp.removeRule nm).2 = [rp.rules] := by
  have hf : rp.rules.filter (fun rule => rule.name != nm) = rp.rules := by
    apply List.filter_eq_self.mpr
    intro a ha
    simpa using h a ha
  unfold RuleProvider.removeRule
  rw [hf]
  exact ⟨rfl, rfl⟩

/-- Concrete rule provider for the claim C8 witness: one rule named A that has
been published once. -/
def c8rp : RuleProvider String :=
  ⟨[⟨"A", "cond", []⟩], [[⟨"A", "cond", []⟩]]⟩

/-- Witness for claim C8: removing the absent name B from the provider leaves
the rule set and the emitted snapshot unchanged. -/
theorem c8_remove_absent_rule_unchanged_witness :
    (∀ r ∈ c8rp.rules, r.name ≠ "B")
    ∧ ((c8rp.removeRule "B").1.rules = c8rp.rules
      ∧ (c8rp.removeRule "B").2 = [c8rp.rules]) :=
  ⟨by decide, c8_remove_absent_rule_unchanged c8rp "B" (by decide)⟩

/-- Claim C9: addContextParam appends the new parameter at the end of the
parameter list unconditionally, because the truthiness guard tests the filter
result, a JavaScript array, which is always truthy. In particular the count of
parameters with the new key always grows by one, so a provider snapshot can
contain duplicate keys. The call emits nothing. -/
theorem c9_addContextParam_unconditional_append (cp : ContextProvider V)
    (newParam : ContextParam V) :
    (cp.addContextParam newParam).contextParams = cp.contextParams ++ [newParam]
    ∧ (cp.addContextParam newParam).contextParams.countP
        (fun q => q.key == newParam.key)
      = cp.contextParams.countP (fun q => q.key == newParam.key) + 1
    ∧ (cp.addContextParam newParam).emitted = cp.emitted := by
  refine ⟨?_, ?_, ?_⟩ <;>
    simp [ContextProvider.addContextParam, jsTruthy, List.countP_append]

/-- Claim C10: modifyContextParam with an absent key changes nothing; with a
present key it removes every parameter with that key and appends one parameter
at the end carrying the contextOfUse, type and key of the first match and the
new value, and it emits no snapshot. -/
theorem c10_modifyContextParam_char (cp : ContextProvider V) (key : String)
    (newValue : V) :
    (cp.getContextParam key = none → cp.modifyContextParam key newValue = cp)
    ∧ ∀ oldParam, cp.getContextParam key = some oldParam →
        (cp.modifyContextParam key newValue).contextParams
          = cp.contextParams.filter (fun param => param.key != key)
            ++ [⟨oldParam.contextOfUse, oldParam.type, oldParam.key, newValue⟩]
        ∧ (cp.modifyContextParam key newValue).emitted = cp.emitted := by
  constructor
  · intro h
    unfold ContextProvider.modifyContextParam
    rw [h]
  · intro oldParam h
    unfold ContextProvider.modifyContextParam
    rw [h]
    constructor <;>
      simp [ContextProvider.addContextParam, ContextProvider.removeContextParam,
        jsTruthy]

/-- Concrete context provider for the claim C10 witness: two parameters share
the key k, one parameter has the key j. -/
def c10cp : ContextProvider String :=
  ⟨[⟨ContextOfUse.user, none, "k", "v1"⟩,
    ⟨ContextOfUse.platform, none, "k", "v2"⟩,
    ⟨ContextOfUse.user, none, "j", "x"⟩], []⟩

/-- First parameter of c10cp carrying the key k. -/
def c10p0 : ContextParam String := ⟨ContextOfUse.user, none, "k", "v1"⟩

/-- Witness for claim C10: modifying the absent key z changes nothing;
modifying the duplicated key k removes both parameters with that key and
appends one parameter with the fields of the first match and the new value,
emitting nothing. -/
theorem c10_modifyContextParam_char_witness :
    (c10cp.getContextParam "z" = none
      ∧ c10cp.modifyContextParam "z" "nv" = c10cp)
    ∧ (c10cp.getContextParam "k" = some c10p0)
    ∧ ((c10cp.modifyContextParam "k" "nv").contextParams
        = c10cp.contextParams.filter (fun param => param.key != "k")
          ++ [⟨c10p0.contextOfUse, c10p0.type, c10p0.key, "nv"⟩]
      ∧ (c10cp.modifyContextParam "k" "nv").emitted = c10cp.emitted) :=
  ⟨⟨by decide, (c10_modifyContextParam_char c10cp "z" "nv").1 (by decide)⟩,
   by decide,
   (c10_modifyContextParam_char c10cp "k" "nv").2 c10p0 (by decide)⟩

-- ===== Registered-producer emission characterisations =====

/-- Registered context provider i calling updateContext, once every slot is
filled: the provider pushes its parameter array, slot i is overwritten, and
exactly one merged snapshot is published. -/
lemma providerUpdateContext_filled (st : AdaptationController V) (i : Nat)
    (cpi : ContextProvider V)
    (hget : st.contextProviders.get? i = some cpi)
    (hslots : st.cpSlots
      = (st.contextProviders.map ContextProvider.bsCurrent).map some) :
    st.providerUpdateContext i =
      AdaptationController.updateContext
        { st with
          contextProviders := st.contextProviders.set i (cpi.updateContext).1
          cpSlots := ((st.contextProviders.map ContextProvider.bsCurrent).set i
            cpi.contextParams).map some }
        (((st.contextProviders.map ContextProvider.bsCurrent).set i
          cpi.contextParams).flatten) := by
  unfold AdaptationController.providerUpdateContext
  rw [hget]
  simp only [ContextProvider.updateContext, List.foldl_cons, List.foldl_nil]
  exact cpArrive_filled _ i cpi.contextParams
    (st.contextProviders.map ContextProvider.bsCurrent) hslots

/-- Registered rule provider i receiving addRule, once every slot is filled:
the provider pushes one snapshot (its rules with the new rule appended), slot
i is overwritten, and exactly one merged snapshot is published. -/
lemma providerAddRule_filled (st : AdaptationController V) (i : Nat)
    (rp : RuleProvider V) (rule : AdaptationRule V)
    (hget : st.ruleProviders.get? i = some rp)
    (hslots : st.rpSlots
      = (st.ruleProviders.map RuleProvider.bsCurrent).map some) :
    st.providerAddRule i rule =
      AdaptationController.updateRules
        { st with
          ruleProviders := st.ruleProviders.set i (rp.addRule rule).1
          rpSlots := ((st.ruleProviders.map RuleProvider.bsCurrent).set i
            (rp.rules ++ [rule])).map some }
        (((st.ruleProviders.map RuleProvider.bsCurrent).set i
          (rp.rules ++ [rule])).flatten) := by
  unfold AdaptationController.providerAddRule
  rw [hget]
  simp only [RuleProvider.addRule, List.foldl_cons, List.foldl_nil]
  exact rpArrive_filled _ i (rp.rules ++ [rule])
    (st.ruleProviders.map RuleProvider.bsCurrent) hslots

-- ===== Claims C2, C3, C7 =====

/-- Concrete parameter for the claim C2 counterexample. -/
def c2cParam : ContextParam String :=
  ⟨ContextOfUse.user, none, "handedness", "left"⟩

/-- Concrete provider for the claim C2 counterexample: it emitted its snapshot
once, before being registered. -/
def c2cProvider : ContextProvider String := ⟨[c2cParam], [[c2cParam]]⟩

/-- Claim C2 is false as stated: registering the single producer rebuilds the
join, and although the producer never emits after the rebuild, the merged
stream already publishes one snapshot, because the producer BehaviorSubject
replays its latest value to the fresh subscription. The claim requires the
merged stream to emit nothing until every producer has emitted since the
rebuild, which would mean no output here. -/
theorem c2_barrier_counterexample :
    ((AdaptationController.init : AdaptationController String).registerContextProvider
        c2cProvider).contextOutputs = [[c2cParam]] := by
  decide

/-- Claim C2 amended: the barrier of the rebuilt join is met during the
rebuild itself, because every producer is a BehaviorSubject replaying its
latest snapshot at subscription: registration publishes exactly one merged
snapshot (the flattened latest snapshots of all producers in registration
order), and afterwards each single producer emission publishes exactly one
merged snapshot, the concatenation of the latest known snapshot of every
producer in registration order with the emitting producer slot updated. -/
theorem c2_amended_barrier_met_by_replay (st : AdaptationController V)
    (cp : ContextProvider V) (cpi : ContextProvider V) (i : Nat)
    (hget : st.contextProviders.get? i = some cpi)
    (hslots : st.cpSlots
      = (st.contextProviders.map ContextProvider.bsCurrent).map some) :
    (st.registerContextProvider cp).contextOutputs
      = st.contextOutputs
        ++ [((st.contextProviders ++ [cp]).map ContextProvider.bsCurrent).flatten]
    ∧ (st.providerUpdateContext i).contextOutputs
      = st.contextOutputs
        ++ [((st.contextProviders.map ContextProvider.bsCurrent).set i
              cpi.contextParams).flatten] := by
  constructor
  · rw [registerContextProvider_char]
    simp [AdaptationController.updateContext]
  · rw [providerUpdateContext_filled st i cpi hget hslots]
    simp [AdaptationController.updateContext]

/-- Provider for the claim C2 witness, registered with one parameter that was
never published. -/
def c2wProvider : ContextProvider String :=
  ⟨[⟨ContextOfUse.user, none, "handedness", "left"⟩], []⟩

/-- Second provider for the claim C2 witness. -/
def c2wProvider2 : ContextProvider String := ⟨[], []⟩

/-- Controller state for the claim C2 witness: one registered provider. -/
def c2wState : AdaptationController String :=
  AdaptationController.init.registerContextProvider c2wProvider

/-- Witness for the amended claim C2 at a concrete state with one registered
provider. -/
theorem c2_amended_barrier_met_by_replay_witness :
    (c2wState.contextProviders.get? 0 = some c2wProvider)
    ∧ (c2wState.cpSlots
        = (c2wState.contextProviders.map ContextProvider.bsCurrent).map some)
    ∧ ((c2wState.registerContextProvider c2wProvider2).contextOutputs
        = c2wState.contextOutputs
          ++ [((c2wState.contextProviders ++ [c2wProvider2]).map
                ContextProvider.bsCurrent).flatten]
      ∧ (c2wState.providerUpdateContext 0).contextOutputs
        = c2wState.contextOutputs
          ++ [((c2wState.contextProviders.map ContextProvider.bsCurrent).set 0
                c2wProvider.contextParams).flatten]) :=
  ⟨by decide, by decide,
   c2_amended_barrier_met_by_replay c2wState c2wProvider2 c2wProvider 0
     (by decide) (by decide)⟩

/-- Provider A for the claim C3 counterexample: it emitted once before
registration. -/
def c3pA : ContextProvider String :=
  ⟨[], [[⟨ContextOfUse.platform, none, "net", "wifi"⟩]]⟩

/-- Provider B for the claim C3 counterexample. -/
def c3pB : ContextProvider String := ⟨[], []⟩

/-- Controller state for the claim C3 counterexample: provider A registered,
join already published M = 1 merged snapshots. -/
def c3State : AdaptationController String :=
  AdaptationController.init.registerContextProvider c3pA

/-- Claim C3 is false as stated: with one producer registered and M = 1 merged
snapshots already published, registering producer two publishes a second
merged snapshot during the registration itself, although no producer emitted
after the rebuild; the claim requires silence until both producers emit again. -/
theorem c3_register_counterexample :
    c3State.contextOutputs.length = 1
    ∧ (c3State.registerContextProvider c3pB).contextOutputs.length = 2 := by
  decide

/-- Claim C3 amended: registering a further producer does rebuild the join
from scratch (the prior slot table is discarded: the result does not depend on
it) and resets the slots to the replayed latest values of all producers; but
because every producer is a BehaviorSubject, the rebuilt join fires
immediately: exactly one merged snapshot is published synchronously during
registration, without waiting for any producer to emit again. -/
theorem c3_amended_register_rebuild_replays (st : AdaptationController V)
    (cp : ContextProvider V) :
    (st.registerContextProvider cp).cpSlots
      = ((st.contextProviders ++ [cp]).map ContextProvider.bsCurrent).map some
    ∧ (st.registerContextProvider cp).contextOutputs
      = st.contextOutputs
        ++ [((st.contextProviders ++ [cp]).map ContextProvider.bsCurrent).flatten]
    ∧ ∀ slots, AdaptationController.registerContextProvider
        { st with cpSlots := slots } cp
        = st.registerContextProvider cp := by
  refine ⟨?_, ?_, ?_⟩
  · rw [registerContextProvider_char]
    simp [AdaptationController.updateContext]
  · rw [registerContextProvider_char]
    simp [AdaptationController.updateContext]
  · intro slots
    rw [registerContextProvider_char, registerContextProvider_char]

/-- Rule for the claim C7 scenario. -/
def c7Rule : AdaptationRule String := ⟨"USER_IS_LEFT_HANDED", "cond", []⟩

/-- Rule provider for the claim C7 witness. -/
def c7rp : RuleProvider String := ⟨[], []⟩

/-- Controller state for the claim C7 witness: RuleEvaluator installed and one
rule provider registered, so the rule join has fired and every slot is
filled. -/
def c7State : AdaptationController String :=
  (AdaptationController.init.registerRuleEvaluator).registerRuleProvider c7rp

/-- Claim C7: calling addRule on a registered, joined rule producer makes the
producer emit exactly one new snapshot, invokes the evaluation trigger exactly
once, and the evaluator receives a merged rule set containing the added rule. -/
theorem c7_addRule_propagates (st : AdaptationController V) (i : Nat)
    (rp : RuleProvider V) (rule : AdaptationRule V)
    (hget : st.ruleProviders.get? i = some rp)
    (hslots : st.rpSlots
      = (st.ruleProviders.map RuleProvider.bsCurrent).map some)
    (heval : st.hasEvaluator = true) :
    (rp.addRule rule).2.length = 1
    ∧ (st.providerAddRule i rule).evalCalls
      = st.evalCalls
        ++ [(((st.ruleProviders.map RuleProvider.bsCurrent).set i
              (rp.rules ++ [rule])).flatten, st.context)]
    ∧ rule ∈ ((st.ruleProviders.map RuleProvider.bsCurrent).set i
        (rp.rules ++ [rule])).flatten
    ∧ (st.providerAddRule i rule).triggerCalls = st.triggerCalls + 1 := by
  have hi : i < st.ruleProviders.length := by
    by_contra hlen
    rw [List.get?_eq_none.mpr (by omega)] at hget
    exact absurd hget (by simp)
  refine ⟨rfl, ?_, ?_, ?_⟩
  · rw [providerAddRule_filled st i rp rule hget hslots]
    simp [AdaptationController.updateRules, heval]
  · refine List.mem_flatten.mpr ⟨rp.rules ++ [rule], ?_, by simp⟩
    exact mem_set_self _ i _ (by simpa using hi)
  · rw [providerAddRule_filled st i rp rule hget hslots]
    simp [AdaptationController.updateRules]

/-- Witness for claim C7 at the concrete joined state. -/
theorem c7_addRule_propagates_witness :
    (c7State.ruleProviders.get? 0 = some c7rp)
    ∧ (c7State.rpSlots
        = (c7State.ruleProviders.map RuleProvider.bsCurrent).map some)
    ∧ (c7State.hasEvaluator = true)
    ∧ ((c7rp.addRule c7Rule).2.length = 1
      ∧ (c7State.providerAddRule 0 c7Rule).evalCalls
        = c7State.evalCalls
          ++ [(((c7State.ruleProviders.map RuleProvider.bsCurrent).set 0
                (c7rp.rules ++ [c7Rule])).flatten, c7State.context)]
      ∧ c7Rule ∈ ((c7State.ruleProviders.map RuleProvider.bsCurrent).set 0
          (c7rp.rules ++ [c7Rule])).flatten
      ∧ (c7State.providerAddRule 0 c7Rule).triggerCalls
        = c7State.triggerCalls + 1) :=
  ⟨by decide, by decide, by decide,
   c7_addRule_propagates c7State 0 c7rp c7Rule (by decide) (by decide) (by decide)⟩

end CoBAUI



